import Mathlib

/-!
Shallow embedding of the excavation job management server: the shared
schema helpers (calculateCubicYards), the zod validation schemas for
estimates, the DbStorage operations over an explicit database state, and
the Express route handlers for jobs and estimates.

Modelling conventions: JavaScript numbers are exact rationals (ℚ);
JS null and undefined are both modelled as none (an explicit null in a
partial update body is outside the model); the database is a record of
lists in insertion order, with serial id counters and a clock for
createdAt.
-/

namespace Excavation

/-! ## Calculation engine (shared/schema.ts and VolumeCalculator.tsx) -/

/-- Number(x.toFixed(2)) for a JS number x: round to the nearest
hundredth, ties toward positive infinity (the ECMAScript toFixed spec
picks the larger integer candidate at a tie). -/
def toFixed2 (q : ℚ) : ℚ := ((⌊q * 100 + 1/2⌋ : ℤ) : ℚ) / 100

/-- calculateCubicYards from shared/schema.ts: cubicFeet =
pipeLength * trenchWidth * trenchDepth, then Number((cubicFeet / 27).toFixed(2)). -/
def calculateCubicYards (pipeLength trenchWidth trenchDepth : ℚ) : ℚ :=
  let cubicFeet := pipeLength * trenchWidth * trenchDepth
  toFixed2 (cubicFeet / 27)

/-- Modelled from the spec words, for the refinement comparison in C1:
(L × W × D) / 27 rounded to 2 decimal places with Mathlib round
(round half away from zero on positives). -/
def specCubicYards (L W D : ℚ) : ℚ := ((round (L * W * D / 27 * 100) : ℤ) : ℚ) / 100

/-- The equipment labor cost breakdown displayed by LaborCalculator. -/
structure EquipmentLaborCost where
  excavator250 : ℚ
  excavator200 : ℚ
  loader : ℚ
  total : ℚ
deriving DecidableEq, Repr

/-- LaborCalculator (VolumeCalculator.tsx): fixed hourly rates 250, 200
and 200 for the 250-series excavator, 200-series excavator and 320-series
loader; total is their sum. -/
def equipmentLaborCost (estimatedHours : ℚ) : EquipmentLaborCost :=
  let excavator250Cost := estimatedHours * 250
  let excavator200Cost := estimatedHours * 200
  let loaderCost := estimatedHours * 200
  { excavator250 := excavator250Cost
    excavator200 := excavator200Cost
    loader := loaderCost
    total := excavator250Cost + excavator200Cost + loaderCost }

/-! ## Data model (shared/schema.ts tables) -/

/-- A persisted row of the jobs table. -/
structure Job where
  id : ℤ
  name : String
  location : String
  client : String
  startDate : Option String
  status : String
  notes : Option String
deriving DecidableEq, Repr

/-- A persisted row of the estimates table.  estimatedHours is written as
a number on every reachable path (createEstimate applies "|| 0"), so it is
modelled as ℚ. -/
structure Estimate where
  id : ℤ
  jobId : ℤ
  description : Option String
  pipeLength : ℚ
  trenchWidth : ℚ
  trenchDepth : ℚ
  cubicYards : ℚ
  materialWeight : ℚ
  importUnitCost : ℚ
  estimatedHours : ℚ
  createdAt : ℕ
  notes : Option String
deriving DecidableEq, Repr

/-- The database state behind DbStorage: both tables in insertion order,
the serial id counters, and a clock supplying new Date() for createdAt. -/
structure DB where
  jobs : List Job
  estimates : List Estimate
  nextJobId : ℤ
  nextEstimateId : ℤ
  now : ℕ
deriving DecidableEq, Repr

/-! ## JS coercion helpers -/

/-- JS "s || null" on a string-or-nullish value: undefined, null and the
empty string all collapse to null. -/
def jsStrOrNull (o : Option String) : Option String :=
  match o with
  | some s => if s = "" then none else some s
  | none => none

/-- JS "s || d" on a string-or-nullish value with a string default. -/
def jsStrOr (o : Option String) (d : String) : String :=
  match o with
  | some s => if s = "" then d else s
  | none => d

/-- JS "x || d" on a number-or-nullish value: undefined, null, NaN
(modelled as none) and 0 all fall back to the default. -/
def jsNumOr (o : Option ℚ) (d : ℚ) : ℚ :=
  match o with
  | some q => if q = 0 then d else q
  | none => d

/-! ## Insert payloads (what the route handlers hand to DbStorage) -/

/-- The InsertJob payload accepted by insertJobSchema: name, location and
client are required strings; startDate, status and notes are optional. -/
structure InsertJob where
  name : String
  location : String
  client : String
  startDate : Option String
  status : Option String
  notes : Option String
deriving DecidableEq, Repr

/-- Partial job update payload (insertJobSchema.partial()): every field
optional, none meaning the key is absent from the body. -/
structure PartialJob where
  name : Option String
  location : Option String
  client : Option String
  startDate : Option String
  status : Option String
  notes : Option String
deriving DecidableEq, Repr

/-- The InsertEstimate payload as constructed by the POST handler: fully
parsed numbers plus an optional estimatedHours (the storage layer applies
"|| 0" to it). -/
structure InsertEstimate where
  jobId : ℤ
  description : Option String
  pipeLength : ℚ
  trenchWidth : ℚ
  trenchDepth : ℚ
  cubicYards : ℚ
  materialWeight : ℚ
  importUnitCost : ℚ
  estimatedHours : Option ℚ
  notes : Option String
deriving DecidableEq, Repr

/-- Partial estimate payload: the output of
estimateValidationSchema.partial() and the update object handed to
DbStorage.updateEstimate; none means the key is absent. -/
structure PartialEstimate where
  jobId : Option ℤ
  description : Option String
  pipeLength : Option ℚ
  trenchWidth : Option ℚ
  trenchDepth : Option ℚ
  cubicYards : Option ℚ
  materialWeight : Option ℚ
  importUnitCost : Option ℚ
  estimatedHours : Option ℚ
  notes : Option String
deriving DecidableEq, Repr

/-! ## DbStorage operations (storage.ts) -/

/-- DbStorage.getJobs: select * from jobs. -/
def getJobs (db : DB) : List Job := db.jobs

/-- DbStorage.getJob: select where eq(jobs.id, id), then results[0]. -/
def getJob (db : DB) (id : ℤ) : Option Job :=
  db.jobs.find? (fun j => j.id == id)

/-- DbStorage.createJob: insert with startDate || null, status ||
'pending', notes || null; serial assigns the next id. -/
def createJob (db : DB) (b : InsertJob) : Job × DB :=
  let j : Job :=
    { id := db.nextJobId
      name := b.name
      location := b.location
      client := b.client
      startDate := jsStrOrNull b.startDate
      status := jsStrOr b.status "pending"
      notes := jsStrOrNull b.notes }
  (j, { db with jobs := db.jobs ++ [j], nextJobId := db.nextJobId + 1 })

/-- The field-presence merge DbStorage.updateJob performs: each field of
validData is set exactly when the key is in updateData. -/
def applyJobUpdate (u : PartialJob) (j : Job) : Job :=
  { j with
    name := u.name.getD j.name
    location := u.location.getD j.location
    client := u.client.getD j.client
    startDate := match u.startDate with | some s => some s | none => j.startDate
    status := u.status.getD j.status
    notes := match u.notes with | some s => some s | none => j.notes }

/-- DbStorage.updateJob: update set validData where eq(jobs.id, id)
returning, then result[0]. -/
def updateJob (db : DB) (id : ℤ) (u : PartialJob) : Option Job × DB :=
  let jobs1 := db.jobs.map (fun j => if j.id == id then applyJobUpdate u j else j)
  ((jobs1.filter (fun j => j.id == id)).head?, { db with jobs := jobs1 })

/-- DbStorage.deleteJob: first delete all estimates with matching jobId,
then delete the job, returning whether any job row was deleted. -/
def deleteJob (db : DB) (id : ℤ) : Bool × DB :=
  let estimates1 := db.estimates.filter (fun e => !(e.jobId == id))
  let deleted := db.jobs.filter (fun j => j.id == id)
  (!deleted.isEmpty,
    { db with estimates := estimates1, jobs := db.jobs.filter (fun j => !(j.id == id)) })

/-- DbStorage.getEstimates: select * from estimates. -/
def getEstimates (db : DB) : List Estimate := db.estimates

/-- DbStorage.getEstimatesByJobId: select where eq(estimates.jobId, jobId). -/
def getEstimatesByJobId (db : DB) (jobId : ℤ) : List Estimate :=
  db.estimates.filter (fun e => e.jobId == jobId)

/-- DbStorage.getEstimate: select where eq(estimates.id, id), results[0]. -/
def getEstimate (db : DB) (id : ℤ) : Option Estimate :=
  db.estimates.find? (fun e => e.id == id)

/-- DbStorage.createEstimate: insert with description || null,
estimatedHours || 0, notes || null, createdAt = new Date(); serial
assigns the next id. -/
def createEstimate (db : DB) (ie : InsertEstimate) : Estimate × DB :=
  let e : Estimate :=
    { id := db.nextEstimateId
      jobId := ie.jobId
      description := jsStrOrNull ie.description
      pipeLength := ie.pipeLength
      trenchWidth := ie.trenchWidth
      trenchDepth := ie.trenchDepth
      cubicYards := ie.cubicYards
      materialWeight := ie.materialWeight
      importUnitCost := ie.importUnitCost
      estimatedHours := jsNumOr ie.estimatedHours 0
      createdAt := db.now
      notes := jsStrOrNull ie.notes }
  (e, { db with estimates := db.estimates ++ [e], nextEstimateId := db.nextEstimateId + 1 })

/-- The field-presence merge DbStorage.updateEstimate performs. -/
def applyEstimateUpdate (u : PartialEstimate) (e : Estimate) : Estimate :=
  { e with
    jobId := u.jobId.getD e.jobId
    description := match u.description with | some s => some s | none => e.description
    pipeLength := u.pipeLength.getD e.pipeLength
    trenchWidth := u.trenchWidth.getD e.trenchWidth
    trenchDepth := u.trenchDepth.getD e.trenchDepth
    cubicYards := u.cubicYards.getD e.cubicYards
    materialWeight := u.materialWeight.getD e.materialWeight
    importUnitCost := u.importUnitCost.getD e.importUnitCost
    estimatedHours := u.estimatedHours.getD e.estimatedHours
    notes := match u.notes with | some s => some s | none => e.notes }

/-- DbStorage.updateEstimate: update set validData where
eq(estimates.id, id) returning, then result[0]. -/
def updateEstimate (db : DB) (id : ℤ) (u : PartialEstimate) : Option Estimate × DB :=
  let estimates1 :=
    db.estimates.map (fun e => if e.id == id then applyEstimateUpdate u e else e)
  ((estimates1.filter (fun e => e.id == id)).head?, { db with estimates := estimates1 })

/-- DbStorage.deleteEstimate. -/
def deleteEstimate (db : DB) (id : ℤ) : Bool × DB :=
  let deleted := db.estimates.filter (fun e => e.id == id)
  (!deleted.isEmpty, { db with estimates := db.estimates.filter (fun e => !(e.id == id)) })

/-! ## parseFloat and the zod estimate validation schema (shared/schema.ts) -/

/-- Value of a decimal digit list, most significant first. -/
def digitsToNat (ds : List ℕ) : ℕ := ds.foldl (fun a d => a * 10 + d) 0

/-- Split a leading run of decimal digits off a character list. -/
def takeDigits : List Char → List ℕ × List Char
  | [] => ([], [])
  | c :: cs =>
    if c.isDigit then
      let (ds, rest) := takeDigits cs
      ((c.toNat - 48) :: ds, rest)
    else ([], c :: cs)

/-- JS parseFloat over exact rationals: skip leading whitespace, then the
longest prefix of the form sign, digits, optional fraction, optional
exponent; none models NaN (no parsable prefix).  Non-finite inputs such
as "Infinity" are outside the model. -/
def parseFloatQ (s : String) : Option ℚ :=
  let cs := s.toList.dropWhile (fun c => c == ' ' || c == '\t' || c == '\n' || c == '\r')
  let (sign, cs1) :=
    match cs with
    | '-' :: rest => ((-1 : ℚ), rest)
    | '+' :: rest => ((1 : ℚ), rest)
    | _ => ((1 : ℚ), cs)
  let (intDs, cs2) := takeDigits cs1
  let (fracDs, cs3) :=
    match cs2 with
    | '.' :: rest => takeDigits rest
    | _ => ([], cs2)
  if intDs.isEmpty && fracDs.isEmpty then none
  else
    let mantissa : ℚ :=
      (digitsToNat intDs : ℚ) + (digitsToNat fracDs : ℚ) / (10 : ℚ) ^ fracDs.length
    let exp : ℤ :=
      match cs3 with
      | c :: rest =>
        if c == 'e' || c == 'E' then
          let (esign, rest1) :=
            match rest with
            | '-' :: r => ((-1 : ℤ), r)
            | '+' :: r => ((1 : ℤ), r)
            | _ => ((1 : ℤ), rest)
          let (eds, _) := takeDigits rest1
          if eds.isEmpty then 0 else esign * (digitsToNat eds : ℤ)
        else 0
      | [] => 0
    some (sign * mantissa * (10 : ℚ) ^ exp)

/-- A JSON value that is either a number or a string, as accepted by the
z.union fields of estimateValidationSchema. -/
inductive NumOrStr where
  | num (q : ℚ)
  | str (s : String)
deriving DecidableEq, Repr

/-- One union field of estimateValidationSchema:
z.union([z.number().positive(), z.string().transform(v => parseFloat(v) || d)]). -/
def parseNumOrStrPos (v : NumOrStr) (d : ℚ) : Option ℚ :=
  match v with
  | .num q => if 0 < q then some q else none
  | .str s => some (jsNumOr (parseFloatQ s) d)

/-- The estimatedHours union field:
z.union([z.number().min(0), z.string().transform(v => parseFloat(v) || d)]). -/
def parseNumOrStrNonneg (v : NumOrStr) (d : ℚ) : Option ℚ :=
  match v with
  | .num q => if 0 ≤ q then some q else none
  | .str s => some (jsNumOr (parseFloatQ s) d)

/-- A request body for POST or PUT /api/estimates; none means the key is
absent (createdAt, a Date column with defaultNow, is never sent by the
client and is ignored here). -/
structure EstimateBody where
  jobId : Option ℤ
  description : Option String
  pipeLength : Option ℚ
  trenchWidth : Option ℚ
  trenchDepth : Option ℚ
  cubicYards : Option ℚ
  materialWeight : Option NumOrStr
  importUnitCost : Option NumOrStr
  estimatedHours : Option NumOrStr
  notes : Option String
deriving DecidableEq, Repr

/-- parseResult.data of a successful estimateValidationSchema.safeParse:
every required field present and refined, union fields already
transformed to numbers. -/
structure ParsedEstimate where
  jobId : ℤ
  description : Option String
  pipeLength : ℚ
  trenchWidth : ℚ
  trenchDepth : ℚ
  cubicYards : ℚ
  materialWeight : ℚ
  importUnitCost : ℚ
  estimatedHours : ℚ
  notes : Option String
deriving DecidableEq, Repr

/-- z.number().positive() on a required field. -/
def requirePos (o : Option ℚ) : Option ℚ := do
  let q ← o
  if 0 < q then some q else none

/-- estimateValidationSchema.safeParse on a POST body: jobId and
cubicYards are plain required numbers (from insertEstimateSchema), the
three dimensions are required positive numbers, and the three union
fields are required with defaults 145, 24.50 and 0 on their string arms. -/
def validateEstimate (b : EstimateBody) : Option ParsedEstimate := do
  let jobId ← b.jobId
  let pipeLength ← requirePos b.pipeLength
  let trenchWidth ← requirePos b.trenchWidth
  let trenchDepth ← requirePos b.trenchDepth
  let cubicYards ← b.cubicYards
  let mwRaw ← b.materialWeight
  let materialWeight ← parseNumOrStrPos mwRaw 145
  let iucRaw ← b.importUnitCost
  let importUnitCost ← parseNumOrStrPos iucRaw 24.5
  let ehRaw ← b.estimatedHours
  let estimatedHours ← parseNumOrStrNonneg ehRaw 0
  some { jobId, description := b.description, pipeLength, trenchWidth, trenchDepth,
         cubicYards, materialWeight, importUnitCost, estimatedHours, notes := b.notes }

/-- Check an optional field of a .partial() schema: absent passes as
absent, present values go through the field's parser. -/
def optPass {α β : Type} (f : α → Option β) (o : Option α) : Option (Option β) :=
  match o with
  | none => some none
  | some a => (f a).map some

/-- estimateValidationSchema.partial().safeParse on a PUT body. -/
def validatePartialEstimate (b : EstimateBody) : Option PartialEstimate := do
  let pipeLength ← optPass (fun q => if 0 < q then some q else none) b.pipeLength
  let trenchWidth ← optPass (fun q => if 0 < q then some q else none) b.trenchWidth
  let trenchDepth ← optPass (fun q => if 0 < q then some q else none) b.trenchDepth
  let materialWeight ← optPass (fun v => parseNumOrStrPos v 145) b.materialWeight
  let importUnitCost ← optPass (fun v => parseNumOrStrPos v 24.5) b.importUnitCost
  let estimatedHours ← optPass (fun v => parseNumOrStrNonneg v 0) b.estimatedHours
  some { jobId := b.jobId, description := b.description, pipeLength, trenchWidth,
         trenchDepth, cubicYards := b.cubicYards, materialWeight, importUnitCost,
         estimatedHours, notes := b.notes }

/-! ## Route handlers (server/routes.ts) -/

/-- Outcome of an estimate route: 201 created, 200 ok, 400, or 404. -/
inductive EstimateResponse where
  | created (e : Estimate)
  | ok (e : Estimate)
  | badRequest
  | notFound
deriving DecidableEq, Repr

/-- Outcome of a job route. -/
inductive JobResponse where
  | created (j : Job)
  | ok (j : Job)
  | notFound
deriving DecidableEq, Repr

/-- The insert object the POST /api/estimates handler builds: the parsed
body with cubicYards overridden by the computed value (the typeof
materialWeight check in the source is always true after the schema
transform, so the parsed number is used). -/
def postInsertPayload (d : ParsedEstimate) : InsertEstimate :=
  { jobId := d.jobId
    description := d.description
    pipeLength := d.pipeLength
    trenchWidth := d.trenchWidth
    trenchDepth := d.trenchDepth
    cubicYards := calculateCubicYards d.pipeLength d.trenchWidth d.trenchDepth
    materialWeight := d.materialWeight
    importUnitCost := d.importUnitCost
    estimatedHours := some d.estimatedHours
    notes := d.notes }

/-- POST /api/estimates: validate, compute cubicYards from the parsed
dimensions, then persist. -/
def postEstimate (db : DB) (b : EstimateBody) : EstimateResponse × DB :=
  match validateEstimate b with
  | none => (.badRequest, db)
  | some d =>
    let (e, db1) := createEstimate db (postInsertPayload d)
    (.created e, db1)

/-- The cubicYards value the PUT /api/estimates/:id handler settles on:
recomputed from the merged dimension values when any dimension key is
present, otherwise the stored value. -/
def putCubicYards (d : PartialEstimate) (cur : Estimate) : ℚ :=
  if d.pipeLength.isSome || d.trenchWidth.isSome || d.trenchDepth.isSome then
    calculateCubicYards (d.pipeLength.getD cur.pipeLength)
      (d.trenchWidth.getD cur.trenchWidth)
      (d.trenchDepth.getD cur.trenchDepth)
  else cur.cubicYards

/-- The update object the PUT handler hands to DbStorage.updateEstimate:
the parsed partial body with the materialWeight and cubicYards keys
always present. -/
def putUpdatePayload (d : PartialEstimate) (cur : Estimate) : PartialEstimate :=
  { d with
    materialWeight := some (d.materialWeight.getD cur.materialWeight)
    cubicYards := some (putCubicYards d cur) }

/-- PUT /api/estimates/:id: validate the partial body, 404 when the
estimate is missing, otherwise update through putUpdatePayload. -/
def putEstimate (db : DB) (id : ℤ) (b : EstimateBody) : EstimateResponse × DB :=
  match validatePartialEstimate b with
  | none => (.badRequest, db)
  | some d =>
    match getEstimate db id with
    | none => (.notFound, db)
    | some currentEstimate =>
      match updateEstimate db id (putUpdatePayload d currentEstimate) with
      | (some e1, db1) => (.ok e1, db1)
      | (none, db1) => (.notFound, db1)

/-- POST /api/jobs: insertJobSchema carries no refinements beyond the
field shapes (status is a plain text column, not an enum check), so every
well-typed InsertJob body parses; the handler delegates to createJob. -/
def postJob (db : DB) (b : InsertJob) : JobResponse × DB :=
  let (j, db1) := createJob db b
  (.created j, db1)

/-- PUT /api/jobs/:id with an already well-typed partial body. -/
def putJob (db : DB) (id : ℤ) (u : PartialJob) : JobResponse × DB :=
  match updateJob db id u with
  | (some j, db1) => (.ok j, db1)
  | (none, db1) => (.notFound, db1)

/-- The cubicYards invariant of claim C2: a stored estimate's cubicYards
agrees with calculateCubicYards on its stored dimensions. -/
def estimateConsistent (e : Estimate) : Prop :=
  e.cubicYards = calculateCubicYards e.pipeLength e.trenchWidth e.trenchDepth

instance (e : Estimate) : Decidable (estimateConsistent e) := by
  unfold estimateConsistent
  infer_instance

/-! ## Concrete fixtures shared by witnesses -/

/-- An empty database in its initial state. -/
def db0 : DB :=
  { jobs := [], estimates := [], nextJobId := 1, nextEstimateId := 1, now := 0 }

/-- A POST /api/estimates body whose pipeLength is 0. -/
def zeroLenBody : EstimateBody :=
  { jobId := some 1, description := none, pipeLength := some 0,
    trenchWidth := some 2, trenchDepth := some 3, cubicYards := some 5,
    materialWeight := some (.num 145), importUnitCost := some (.num 24.5),
    estimatedHours := some (.num 0), notes := none }

/-! ## Claim theorems -/

/-- C1: for all positive real inputs, calculateCubicYards(L, W, D)
returns (L × W × D) / 27 rounded to 2 decimal places, and for the example
L=100, W=2, D=3 it returns 22.22. -/
theorem calculateCubicYards_matches_spec (L W D : ℚ)
    (hL : 0 < L) (hW : 0 < W) (hD : 0 < D) :
    calculateCubicYards L W D = specCubicYards L W D ∧
      calculateCubicYards 100 2 3 = 22.22 := by
  constructor
  · simp [calculateCubicYards, specCubicYards, toFixed2, round_eq]
  · norm_num [calculateCubicYards, toFixed2]

/-- Witness for C1 at the example L=100, W=2, D=3. -/
theorem calculateCubicYards_matches_spec_witness :
    calculateCubicYards 100 2 3 = specCubicYards 100 2 3 ∧
      calculateCubicYards 100 2 3 = 22.22 :=
  calculateCubicYards_matches_spec 100 2 3 (by norm_num) (by norm_num) (by norm_num)

/-- C8: for all estimatedHours h ≥ 0 the equipment labor cost components
are h×250, h×200 and h×200, the total is their sum, and at h = 8 the
total is 5200.00. -/
theorem equipmentLaborCost_components (h : ℚ) (hh : 0 ≤ h) :
    (equipmentLaborCost h).excavator250 = h * 250 ∧
      (equipmentLaborCost h).excavator200 = h * 200 ∧
      (equipmentLaborCost h).loader = h * 200 ∧
      (equipmentLaborCost h).total = h * 250 + h * 200 + h * 200 ∧
      (equipmentLaborCost 8).total = 5200 :=
  ⟨rfl, rfl, rfl, rfl, by norm_num [equipmentLaborCost]⟩

/-- Witness for C8 at h = 8. -/
theorem equipmentLaborCost_components_witness :
    (equipmentLaborCost 8).excavator250 = 8 * 250 ∧
      (equipmentLaborCost 8).excavator200 = 8 * 200 ∧
      (equipmentLaborCost 8).loader = 8 * 200 ∧
      (equipmentLaborCost 8).total = 8 * 250 + 8 * 200 + 8 * 200 ∧
      (equipmentLaborCost 8).total = 5200 :=
  equipmentLaborCost_components 8 (by norm_num)

/-- C4: a POST /api/estimates body whose pipeLength is non-positive is
rejected with 400 and the database state is unchanged. -/
theorem postEstimate_nonpositive_pipeLength_rejected (db : DB) (b : EstimateBody)
    (p : ℚ) (hp : b.pipeLength = some p) (hnp : p ≤ 0) :
    postEstimate db b = (.badRequest, db) := by
  have hlt : ¬ (0 < p) := not_lt.mpr hnp
  have hv : validateEstimate b = none := by
    cases hj : b.jobId with
    | none => simp [validateEstimate, hj]
    | some j => simp [validateEstimate, hj, hp, requirePos, hlt]
  simp [postEstimate, hv]

/-- Witness for C4: pipeLength 0 on the empty database. -/
theorem postEstimate_nonpositive_pipeLength_rejected_witness :
    zeroLenBody.pipeLength = some 0 ∧
      postEstimate db0 zeroLenBody = (.badRequest, db0) :=
  ⟨rfl, postEstimate_nonpositive_pipeLength_rejected db0 zeroLenBody 0 rfl le_rfl⟩

/-- C5: deleteJob first deletes every estimate whose jobId matches
(tolerating the case of none, in which case unrelated estimates are
untouched), then deletes the job; it returns true exactly when the job
existed, and afterwards no estimate with that jobId and no job with that
id remains. -/
theorem deleteJob_cascade (db : DB) (id : ℤ) :
    ((deleteJob db id).1 = true ↔ ∃ j ∈ db.jobs, j.id = id) ∧
      (∀ e ∈ (deleteJob db id).2.estimates, e.jobId ≠ id) ∧
      (∀ j ∈ getJobs (deleteJob db id).2, j.id ≠ id) ∧
      (∀ e ∈ db.estimates, e.jobId ≠ id → e ∈ (deleteJob db id).2.estimates) := by
  refine ⟨?_, ?_, ?_, ?_⟩
  · simp [deleteJob, List.isEmpty_iff, List.filter_eq_nil_iff]
  · intro e he
    simp [deleteJob, List.mem_filter] at he
    exact he.2
  · intro j hj
    simp [deleteJob, getJobs, List.mem_filter] at hj
    exact hj.2
  · intro e he hne
    simp [deleteJob, List.mem_filter]
    exact ⟨he, hne⟩

/-- Witness for C5 on a database holding one job with one estimate and an
unrelated estimate: the delete reports success, the cascaded estimate is
gone and the unrelated one survives. -/
theorem deleteJob_cascade_witness :
    (deleteJob
        { jobs := [{ id := 1, name := "j", location := "l", client := "c",
                     startDate := none, status := "pending", notes := none }],
          estimates :=
            [{ id := 1, jobId := 1, description := none, pipeLength := 27,
               trenchWidth := 1, trenchDepth := 1, cubicYards := 1,
               materialWeight := 145, importUnitCost := 24.5, estimatedHours := 0,
               createdAt := 0, notes := none },
             { id := 2, jobId := 2, description := none, pipeLength := 27,
               trenchWidth := 1, trenchDepth := 1, cubicYards := 1,
               materialWeight := 145, importUnitCost := 24.5, estimatedHours := 0,
               createdAt := 0, notes := none }],
          nextJobId := 2, nextEstimateId := 3, now := 0 } 1).1 = true := by
  apply (deleteJob_cascade _ 1).1.mpr
  exact ⟨{ id := 1, name := "j", location := "l", client := "c",
           startDate := none, status := "pending", notes := none },
         by simp, rfl⟩

/-- applyEstimateUpdate never touches the primary key. -/
theorem applyEstimateUpdate_id (u : PartialEstimate) (e : Estimate) :
    (applyEstimateUpdate u e).id = e.id := rfl

/-- Every estimate in the table after DbStorage.updateEstimate is either
an untouched row or the updated image of a row with the targeted id. -/
theorem mem_updateEstimate {db : DB} {id : ℤ} {u : PartialEstimate} {x : Estimate}
    (hx : x ∈ (updateEstimate db id u).2.estimates) :
    ∃ e ∈ db.estimates, x = if e.id = id then applyEstimateUpdate u e else e := by
  simp only [updateEstimate] at hx
  obtain ⟨e, he, hxe⟩ := List.mem_map.mp hx
  refine ⟨e, he, ?_⟩
  by_cases h : e.id = id
  · simp [h] at hxe
    simp [h]
    exact hxe.symm
  · simp [h] at hxe
    simp [h]
    exact hxe.symm

/-- The row DbStorage.updateEstimate returns is the updated image of some
stored row carrying the targeted id. -/
theorem updateEstimate_returns {db : DB} {id : ℤ} {u : PartialEstimate} {x : Estimate}
    (hx : (updateEstimate db id u).1 = some x) :
    ∃ e ∈ db.estimates, e.id = id ∧ x = applyEstimateUpdate u e := by
  simp only [updateEstimate] at hx
  have hmem : x ∈ (db.estimates.map
      (fun e => if e.id == id then applyEstimateUpdate u e else e)).filter
      (fun e => e.id == id) := by
    cases hl : (db.estimates.map
        (fun e => if e.id == id then applyEstimateUpdate u e else e)).filter
        (fun e => e.id == id) with
    | nil => rw [hl] at hx; simp at hx
    | cons a t =>
      rw [hl] at hx
      simp only [List.head?] at hx
      obtain rfl : a = x := Option.some.inj hx
      exact List.mem_cons_self a t
  obtain ⟨hmap, hid⟩ := List.mem_filter.mp hmem
  obtain ⟨e, he, hxe⟩ := List.mem_map.mp hmap
  by_cases h : e.id = id
  · refine ⟨e, he, h, ?_⟩
    simp [h] at hxe
    exact hxe.symm
  · exfalso
    simp [h] at hxe
    rw [← hxe] at hid
    simp at hid
    exact h hid

/-- When a row with the targeted id exists, DbStorage.updateEstimate
returns some row. -/
theorem updateEstimate_some {db : DB} {id : ℤ} {u : PartialEstimate} {cur : Estimate}
    (h : getEstimate db id = some cur) :
    ∃ x, (updateEstimate db id u).1 = some x := by
  have hcm : cur ∈ db.estimates := List.mem_of_find?_eq_some h
  have hci : cur.id = id := by
    have := List.find?_some h
    simpa using this
  simp only [updateEstimate]
  have hmem : applyEstimateUpdate u cur ∈
      (db.estimates.map
        (fun e => if e.id == id then applyEstimateUpdate u e else e)).filter
        (fun e => e.id == id) := by
    refine List.mem_filter.mpr ⟨List.mem_map.mpr ⟨cur, hcm, ?_⟩, ?_⟩
    · simp [hci]
    · simp [applyEstimateUpdate_id, hci]
  cases hl : (db.estimates.map
      (fun e => if e.id == id then applyEstimateUpdate u e else e)).filter
      (fun e => e.id == id) with
  | nil => rw [hl] at hmem; simp at hmem
  | cons a t => exact ⟨a, by simp [hl, List.head?]⟩

/-- With pairwise-distinct ids, the first row find? locates is the only
row carrying that id. -/
theorem find_unique {l : List Estimate} {id : ℤ} {cur : Estimate}
    (hnd : l.Pairwise (fun a b => a.id ≠ b.id))
    (hf : l.find? (fun e => e.id == id) = some cur) :
    ∀ e ∈ l, e.id = id → e = cur := by
  induction l with
  | nil => simp at hf
  | cons a t ih =>
    obtain ⟨ha, ht⟩ := List.pairwise_cons.mp hnd
    intro e he hid
    by_cases hb : a.id = id
    · rw [List.find?_cons_of_pos _ (by simp [hb])] at hf
      have hac : a = cur := Option.some.inj hf
      rcases List.mem_cons.mp he with rfl | het
      · exact hac
      · exact absurd (hb.trans hid.symm) (ha e het)
    · rw [List.find?_cons_of_neg _ (by simp [hb])] at hf
      rcases List.mem_cons.mp he with rfl | het
      · exact absurd hid hb
      · exact ih ht hf e het hid

/-- Applying the PUT handler's update object to the row it was computed
from preserves the cubicYards invariant. -/
theorem putPayload_consistent (d : PartialEstimate) (cur : Estimate)
    (hcur : estimateConsistent cur) :
    estimateConsistent (applyEstimateUpdate (putUpdatePayload d cur) cur) := by
  rcases hp : d.pipeLength with _ | p <;>
    rcases hw : d.trenchWidth with _ | w <;>
      rcases hdp : d.trenchDepth with _ | dp <;>
        simp [estimateConsistent, applyEstimateUpdate, putUpdatePayload,
          putCubicYards, hp, hw, hdp] <;>
        simpa [estimateConsistent] using hcur

/-- A successful validation makes the POST handler persist through
postInsertPayload. -/
theorem postEstimate_success {db : DB} {b : EstimateBody} {d : ParsedEstimate}
    (hv : validateEstimate b = some d) :
    postEstimate db b =
      (.created (createEstimate db (postInsertPayload d)).1,
        (createEstimate db (postInsertPayload d)).2) := by
  simp [postEstimate, hv]

/-- C2: every persisted estimate satisfies the cubicYards equation.
Starting from a consistent table with pairwise-distinct ids, POST
/api/estimates and PUT /api/estimates/:id keep every stored row
consistent, and the row a successful POST creates carries cubicYards
computed from the validated dimensions — never the caller-supplied
cubicYards field of the body. -/
theorem cubicYards_invariant (db : DB) (b : EstimateBody) (id : ℤ)
    (hnd : db.estimates.Pairwise (fun a b => a.id ≠ b.id))
    (hdb : ∀ e ∈ db.estimates, estimateConsistent e) :
    (∀ e ∈ (postEstimate db b).2.estimates, estimateConsistent e) ∧
      (∀ e ∈ (putEstimate db id b).2.estimates, estimateConsistent e) ∧
      (∀ d, validateEstimate b = some d →
        ∃ e db1, postEstimate db b = (.created e, db1) ∧
          e.cubicYards = calculateCubicYards d.pipeLength d.trenchWidth d.trenchDepth) := by
  refine ⟨?_, ?_, ?_⟩
  · cases hv : validateEstimate b with
    | none =>
      intro e he
      simp [postEstimate, hv] at he
      exact hdb e he
    | some d =>
      intro e he
      simp [postEstimate, hv, createEstimate] at he
      rcases he with he | he
      · exact hdb e he
      · subst he
        simp [estimateConsistent, postInsertPayload]
  · cases hv : validatePartialEstimate b with
    | none =>
      intro e he
      simp [putEstimate, hv] at he
      exact hdb e he
    | some d =>
      cases hc : getEstimate db id with
      | none =>
        intro e he
        simp [putEstimate, hv, hc] at he
        exact hdb e he
      | some cur =>
        have hstate : (putEstimate db id b).2 =
            (updateEstimate db id (putUpdatePayload d cur)).2 := by
          rcases hru : updateEstimate db id (putUpdatePayload d cur) with ⟨r, dbu⟩
          cases r <;> simp [putEstimate, hv, hc, hru]
        intro x hx
        rw [hstate] at hx
        obtain ⟨e, he, hxe⟩ := mem_updateEstimate hx
        by_cases hid : e.id = id
        · have hec : e = cur := find_unique hnd hc e he hid
          rw [hxe, if_pos hid, hec]
          exact putPayload_consistent d cur (hdb cur (hec ▸ he))
        · rw [hxe, if_neg hid]
          exact hdb e he
  · intro d hv
    refine ⟨(createEstimate db (postInsertPayload d)).1,
      (createEstimate db (postInsertPayload d)).2, postEstimate_success hv, ?_⟩
    simp [createEstimate, postInsertPayload]

/-- A fully valid POST /api/estimates body whose caller-supplied
cubicYards (5) disagrees with the computed value (22.22). -/
def okBody : EstimateBody :=
  { jobId := some 1, description := none, pipeLength := some 100,
    trenchWidth := some 2, trenchDepth := some 3, cubicYards := some 5,
    materialWeight := some (.num 145), importUnitCost := some (.num 24.5),
    estimatedHours := some (.num 8), notes := none }

/-- The parse result of okBody. -/
def okParsed : ParsedEstimate :=
  { jobId := 1, description := none, pipeLength := 100, trenchWidth := 2,
    trenchDepth := 3, cubicYards := 5, materialWeight := 145,
    importUnitCost := 24.5, estimatedHours := 8, notes := none }

/-- The row POST /api/estimates persists for okBody on the empty
database. -/
def okEstimate : Estimate :=
  { id := 1, jobId := 1, description := none, pipeLength := 100,
    trenchWidth := 2, trenchDepth := 3, cubicYards := 22.22,
    materialWeight := 145, importUnitCost := 24.5, estimatedHours := 8,
    createdAt := 0, notes := none }

/-- The database after that POST. -/
def dbAfterPost : DB :=
  { jobs := [], estimates := [okEstimate], nextJobId := 1, nextEstimateId := 2, now := 0 }

/-- okBody validates to okParsed. -/
theorem validateEstimate_okBody : validateEstimate okBody = some okParsed := by
  simp [validateEstimate, okBody, okParsed, requirePos, parseNumOrStrPos,
    parseNumOrStrNonneg]
  norm_num

/-- Concrete run of POST /api/estimates on okBody. -/
theorem postEstimate_okBody_eval :
    postEstimate db0 okBody = (.created okEstimate, dbAfterPost) := by
  rw [postEstimate_success validateEstimate_okBody]
  simp [createEstimate, postInsertPayload, okParsed, okEstimate, dbAfterPost, db0,
    jsNumOr, jsStrOrNull, calculateCubicYards, toFixed2]
  norm_num

/-- Witness for C2: the row created by a concrete POST satisfies the
cubicYards invariant even though the body carried cubicYards = 5. -/
theorem cubicYards_invariant_witness : estimateConsistent okEstimate :=
  (cubicYards_invariant db0 okBody 1 (by simp [db0]) (by simp [db0])).1 okEstimate
    (by rw [postEstimate_okBody_eval]; simp [dbAfterPost])

/-- C3: whenever a PUT /api/estimates/:id body contains at least one
dimension, the row the handler returns carries cubicYards recomputed from
the merged dimensions — each present field replacing the stored one,
absent fields taken from the stored row. -/
theorem putEstimate_recomputes_merged (db : DB) (id : ℤ) (b : EstimateBody)
    (d : PartialEstimate) (cur e1 : Estimate) (db1 : DB)
    (hv : validatePartialEstimate b = some d)
    (hdim : d.pipeLength.isSome ∨ d.trenchWidth.isSome ∨ d.trenchDepth.isSome)
    (hc : getEstimate db id = some cur)
    (hput : putEstimate db id b = (.ok e1, db1)) :
    e1.cubicYards = calculateCubicYards (d.pipeLength.getD cur.pipeLength)
      (d.trenchWidth.getD cur.trenchWidth) (d.trenchDepth.getD cur.trenchDepth) := by
  have hcond : (d.pipeLength.isSome || d.trenchWidth.isSome || d.trenchDepth.isSome)
      = true := by
    rcases hdim with h | h | h <;> simp [h]
  have hu : (updateEstimate db id (putUpdatePayload d cur)).1 = some e1 := by
    rcases hru : updateEstimate db id (putUpdatePayload d cur) with ⟨r, dbu⟩
    cases r with
    | none => simp [putEstimate, hv, hc, hru] at hput
    | some x =>
      simp [putEstimate, hv, hc, hru] at hput
      simp [hput.1]
  obtain ⟨e, he, hid, hxe⟩ := updateEstimate_returns hu
  rw [hxe]
  simp [applyEstimateUpdate, putUpdatePayload, putCubicYards, hcond]

/-- C9: a PUT /api/estimates/:id whose body supplies cubicYards but no
dimension leaves the stored cubicYards in place — the caller-supplied
value is discarded — while the other supplied fields are applied. -/
theorem putEstimate_discards_caller_cubicYards (db : DB) (id : ℤ) (b : EstimateBody)
    (d : PartialEstimate) (cur e1 : Estimate) (db1 : DB)
    (hv : validatePartialEstimate b = some d)
    (hcy : d.cubicYards.isSome)
    (hpl : d.pipeLength = none) (htw : d.trenchWidth = none)
    (htd : d.trenchDepth = none)
    (hc : getEstimate db id = some cur)
    (hput : putEstimate db id b = (.ok e1, db1)) :
    e1.cubicYards = cur.cubicYards ∧
      (∀ s, d.description = some s → e1.description = some s) ∧
      (∀ q, d.materialWeight = some q → e1.materialWeight = q) ∧
      (∀ q, d.importUnitCost = some q → e1.importUnitCost = q) ∧
      (∀ q, d.estimatedHours = some q → e1.estimatedHours = q) ∧
      (∀ s, d.notes = some s → e1.notes = some s) ∧
      (∀ k, d.jobId = some k → e1.jobId = k) := by
  have hu : (updateEstimate db id (putUpdatePayload d cur)).1 = some e1 := by
    rcases hru : updateEstimate db id (putUpdatePayload d cur) with ⟨r, dbu⟩
    cases r with
    | none => simp [putEstimate, hv, hc, hru] at hput
    | some x =>
      simp [putEstimate, hv, hc, hru] at hput
      simp [hput.1]
  obtain ⟨e, he, hid, hxe⟩ := updateEstimate_returns hu
  refine ⟨?_, ?_, ?_, ?_, ?_, ?_, ?_⟩
  · rw [hxe]
    simp [applyEstimateUpdate, putUpdatePayload, putCubicYards, hpl, htw, htd]
  · intro s hs
    rw [hxe]
    simp [applyEstimateUpdate, putUpdatePayload, hs]
  · intro q hq
    rw [hxe]
    simp [applyEstimateUpdate, putUpdatePayload, hq]
  · intro q hq
    rw [hxe]
    simp [applyEstimateUpdate, putUpdatePayload, hq]
  · intro q hq
    rw [hxe]
    simp [applyEstimateUpdate, putUpdatePayload, hq]
  · intro s hs
    rw [hxe]
    simp [applyEstimateUpdate, putUpdatePayload, hs]
  · intro k hk
    rw [hxe]
    simp [applyEstimateUpdate, putUpdatePayload, hk]

/-- A stored estimate with consistent cubicYards (27 ft³ = 1 yd³). -/
def estA : Estimate :=
  { id := 1, jobId := 1, description := none, pipeLength := 27, trenchWidth := 1,
    trenchDepth := 1, cubicYards := 1, materialWeight := 145, importUnitCost := 24.5,
    estimatedHours := 0, createdAt := 0, notes := none }

/-- A database holding just estA. -/
def dbOne : DB :=
  { jobs := [], estimates := [estA], nextJobId := 1, nextEstimateId := 2, now := 0 }

/-- A PUT body updating only pipeLength. -/
def putBodyLen : EstimateBody :=
  { jobId := none, description := none, pipeLength := some 54, trenchWidth := none,
    trenchDepth := none, cubicYards := none, materialWeight := none,
    importUnitCost := none, estimatedHours := none, notes := none }

/-- The parse of putBodyLen. -/
def putParsedLen : PartialEstimate :=
  { jobId := none, description := none, pipeLength := some 54, trenchWidth := none,
    trenchDepth := none, cubicYards := none, materialWeight := none,
    importUnitCost := none, estimatedHours := none, notes := none }

/-- estA after the pipeLength-only PUT: cubicYards recomputed to 2. -/
def estALen : Estimate :=
  { id := 1, jobId := 1, description := none, pipeLength := 54, trenchWidth := 1,
    trenchDepth := 1, cubicYards := 2, materialWeight := 145, importUnitCost := 24.5,
    estimatedHours := 0, createdAt := 0, notes := none }

/-- The database after that PUT. -/
def dbOneLen : DB :=
  { jobs := [], estimates := [estALen], nextJobId := 1, nextEstimateId := 2, now := 0 }

/-- putBodyLen validates to putParsedLen. -/
theorem validatePartial_putBodyLen :
    validatePartialEstimate putBodyLen = some putParsedLen := by
  simp [validatePartialEstimate, putBodyLen, putParsedLen, optPass]

/-- estA is the row getEstimate finds in dbOne. -/
theorem getEstimate_dbOne : getEstimate dbOne 1 = some estA := by
  simp [getEstimate, dbOne, estA]

/-- Concrete run of the pipeLength-only PUT. -/
theorem putEstimate_putBodyLen_eval :
    putEstimate dbOne 1 putBodyLen = (.ok estALen, dbOneLen) := by
  have hu : updateEstimate dbOne 1 (putUpdatePayload putParsedLen estA)
      = (some estALen, dbOneLen) := by
    simp [updateEstimate, putUpdatePayload, putCubicYards, applyEstimateUpdate,
      putParsedLen, dbOne, estA, estALen, dbOneLen, calculateCubicYards, toFixed2]
    norm_num
  simp only [putEstimate, validatePartial_putBodyLen, getEstimate_dbOne, hu]

/-- Witness for C3: updating only pipeLength recomputes cubicYards from
the new pipeLength and the stored width and depth. -/
theorem putEstimate_recomputes_merged_witness :
    estALen.cubicYards = calculateCubicYards (putParsedLen.pipeLength.getD estA.pipeLength)
      (putParsedLen.trenchWidth.getD estA.trenchWidth)
      (putParsedLen.trenchDepth.getD estA.trenchDepth) :=
  putEstimate_recomputes_merged dbOne 1 putBodyLen putParsedLen estA estALen dbOneLen
    validatePartial_putBodyLen (Or.inl (by simp [putParsedLen]))
    getEstimate_dbOne putEstimate_putBodyLen_eval

/-- A PUT body that supplies cubicYards (99) and materialWeight (150) but
no dimension. -/
def putBodyCy : EstimateBody :=
  { jobId := none, description := none, pipeLength := none, trenchWidth := none,
    trenchDepth := none, cubicYards := some 99, materialWeight := some (.num 150),
    importUnitCost := none, estimatedHours := none, notes := none }

/-- The parse of putBodyCy. -/
def putParsedCy : PartialEstimate :=
  { jobId := none, description := none, pipeLength := none, trenchWidth := none,
    trenchDepth := none, cubicYards := some 99, materialWeight := some 150,
    importUnitCost := none, estimatedHours := none, notes := none }

/-- estA after that PUT: cubicYards kept at 1, materialWeight updated. -/
def estACy : Estimate :=
  { id := 1, jobId := 1, description := none, pipeLength := 27, trenchWidth := 1,
    trenchDepth := 1, cubicYards := 1, materialWeight := 150, importUnitCost := 24.5,
    estimatedHours := 0, createdAt := 0, notes := none }

/-- The database after that PUT. -/
def dbOneCy : DB :=
  { jobs := [], estimates := [estACy], nextJobId := 1, nextEstimateId := 2, now := 0 }

/-- putBodyCy validates to putParsedCy. -/
theorem validatePartial_putBodyCy :
    validatePartialEstimate putBodyCy = some putParsedCy := by
  simp [validatePartialEstimate, putBodyCy, putParsedCy, optPass, parseNumOrStrPos]

/-- Concrete run of the cubicYards-only PUT: the stored cubicYards 1 is
written back, not the caller's 99. -/
theorem putEstimate_putBodyCy_eval :
    putEstimate dbOne 1 putBodyCy = (.ok estACy, dbOneCy) := by
  have hu : updateEstimate dbOne 1 (putUpdatePayload putParsedCy estA)
      = (some estACy, dbOneCy) := by
    simp [updateEstimate, putUpdatePayload, putCubicYards, applyEstimateUpdate,
      putParsedCy, dbOne, estA, estACy, dbOneCy]
  simp only [putEstimate, validatePartial_putBodyCy, getEstimate_dbOne, hu]

/-- Witness for C9 at the concrete PUT above. -/
theorem putEstimate_discards_caller_cubicYards_witness :
    estACy.cubicYards = estA.cubicYards ∧
      (∀ s, putParsedCy.description = some s → estACy.description = some s) ∧
      (∀ q, putParsedCy.materialWeight = some q → estACy.materialWeight = q) ∧
      (∀ q, putParsedCy.importUnitCost = some q → estACy.importUnitCost = q) ∧
      (∀ q, putParsedCy.estimatedHours = some q → estACy.estimatedHours = q) ∧
      (∀ s, putParsedCy.notes = some s → estACy.notes = some s) ∧
      (∀ k, putParsedCy.jobId = some k → estACy.jobId = k) :=
  putEstimate_discards_caller_cubicYards dbOne 1 putBodyCy putParsedCy estA estACy dbOneCy
    validatePartial_putBodyCy (by simp [putParsedCy]) rfl rfl rfl
    getEstimate_dbOne putEstimate_putBodyCy_eval

/-- JS "|| null" is the identity on absent and non-empty values. -/
theorem jsStrOrNull_of_ne_empty {o : Option String} (h : o ≠ some "") :
    jsStrOrNull o = o := by
  cases o with
  | none => rfl
  | some s =>
    have hs : s ≠ "" := fun he => h (by rw [he])
    simp [jsStrOrNull, hs]

/-- JS "|| d" agrees with getD on absent and non-empty values. -/
theorem jsStrOr_of_ne_empty {o : Option String} (d : String) (h : o ≠ some "") :
    jsStrOr o d = o.getD d := by
  cases o with
  | none => rfl
  | some s =>
    have hs : s ≠ "" := fun he => h (by rw [he])
    simp [jsStrOr, hs]

/-- JS "q || 0" on a present number is the number itself. -/
theorem jsNumOr_some_zero (q : ℚ) : jsNumOr (some q) 0 = q := by
  by_cases h : q = 0 <;> simp [jsNumOr, h]

/-- find? skips a prefix on which the predicate is everywhere false. -/
theorem find_append_of_none {α : Type} {p : α → Bool} {l1 l2 : List α}
    (h : ∀ a ∈ l1, p a = false) : (l1 ++ l2).find? p = l2.find? p := by
  induction l1 with
  | nil => rfl
  | cons a t ih =>
    rw [List.cons_append, List.find?_cons_of_neg _ (by simp [h a (List.mem_cons_self a t)])]
    exact ih (fun x hx => h x (List.mem_cons.mpr (Or.inr hx)))

/-- C6 counterexample: the round-trip equality fails as stated.  okBody
is a valid create input carrying cubicYards = 5, the POST succeeds and
the fetched row differs from the input on the cubicYards field (the
server stored its computed 22.22 instead). -/
theorem roundtrip_counterexample :
    okBody.cubicYards = some 5 ∧
      postEstimate db0 okBody = (.created okEstimate, dbAfterPost) ∧
      getEstimate dbAfterPost okEstimate.id = some okEstimate ∧
      okEstimate.cubicYards ≠ 5 := by
  refine ⟨rfl, postEstimate_okBody_eval, ?_, ?_⟩
  · simp [getEstimate, dbAfterPost, okEstimate]
  · norm_num [okEstimate]

/-- C6 as amended: creating then fetching a Job or Estimate by the
returned id yields the input fields plus the server-assigned id (and
createdAt), except that the stored cubicYards is the server-computed
value from the submitted dimensions rather than the caller-supplied
field, an omitted job status is stored as "pending", and empty-string
optional text inputs (normalized to null by the storage layer) are
excluded. -/
theorem roundtrip_amended (db : DB) (bj : InsertJob) (be : EstimateBody)
    (d : ParsedEstimate)
    (hfj : ∀ j ∈ db.jobs, j.id ≠ db.nextJobId)
    (hfe : ∀ e ∈ db.estimates, e.id ≠ db.nextEstimateId)
    (hsd : bj.startDate ≠ some "") (hsn : bj.notes ≠ some "")
    (hss : bj.status ≠ some "")
    (hed : d.description ≠ some "") (hen : d.notes ≠ some "")
    (hv : validateEstimate be = some d) :
    (getJob (createJob db bj).2 (createJob db bj).1.id = some (createJob db bj).1 ∧
      (createJob db bj).1.id = db.nextJobId ∧
      (createJob db bj).1.name = bj.name ∧
      (createJob db bj).1.location = bj.location ∧
      (createJob db bj).1.client = bj.client ∧
      (createJob db bj).1.startDate = bj.startDate ∧
      (createJob db bj).1.status = bj.status.getD "pending" ∧
      (createJob db bj).1.notes = bj.notes) ∧
    ((postEstimate db be).1 = .created (createEstimate db (postInsertPayload d)).1 ∧
      getEstimate (postEstimate db be).2 (createEstimate db (postInsertPayload d)).1.id
        = some (createEstimate db (postInsertPayload d)).1 ∧
      (createEstimate db (postInsertPayload d)).1.id = db.nextEstimateId ∧
      (createEstimate db (postInsertPayload d)).1.jobId = d.jobId ∧
      (createEstimate db (postInsertPayload d)).1.description = d.description ∧
      (createEstimate db (postInsertPayload d)).1.pipeLength = d.pipeLength ∧
      (createEstimate db (postInsertPayload d)).1.trenchWidth = d.trenchWidth ∧
      (createEstimate db (postInsertPayload d)).1.trenchDepth = d.trenchDepth ∧
      (createEstimate db (postInsertPayload d)).1.cubicYards
        = calculateCubicYards d.pipeLength d.trenchWidth d.trenchDepth ∧
      (createEstimate db (postInsertPayload d)).1.materialWeight = d.materialWeight ∧
      (createEstimate db (postInsertPayload d)).1.importUnitCost = d.importUnitCost ∧
      (createEstimate db (postInsertPayload d)).1.estimatedHours = d.estimatedHours ∧
      (createEstimate db (postInsertPayload d)).1.createdAt = db.now ∧
      (createEstimate db (postInsertPayload d)).1.notes = d.notes) := by
  constructor
  · refine ⟨?_, rfl, rfl, rfl, rfl, ?_, ?_, ?_⟩
    · show ((db.jobs ++ [(createJob db bj).1]).find?
        (fun j => j.id == (createJob db bj).1.id)) = some (createJob db bj).1
      rw [find_append_of_none]
      · rw [List.find?_cons_of_pos _ (by simp)]
      · intro a ha
        have : (createJob db bj).1.id = db.nextJobId := rfl
        simp [this, hfj a ha]
    · exact jsStrOrNull_of_ne_empty hsd
    · exact jsStrOr_of_ne_empty "pending" hss
    · exact jsStrOrNull_of_ne_empty hsn
  · rw [postEstimate_success hv]
    refine ⟨rfl, ?_, rfl, rfl, ?_, rfl, rfl, rfl, rfl, rfl, rfl, ?_, rfl, ?_⟩
    · show ((db.estimates ++ [(createEstimate db (postInsertPayload d)).1]).find?
        (fun e => e.id == (createEstimate db (postInsertPayload d)).1.id))
        = some (createEstimate db (postInsertPayload d)).1
      rw [find_append_of_none]
      · rw [List.find?_cons_of_pos _ (by simp)]
      · intro a ha
        have : (createEstimate db (postInsertPayload d)).1.id = db.nextEstimateId := rfl
        simp [this, hfe a ha]
    · exact jsStrOrNull_of_ne_empty hed
    · exact jsNumOr_some_zero d.estimatedHours
    · exact jsStrOrNull_of_ne_empty hen

/-- A valid POST /api/jobs body. -/
def jobB : InsertJob :=
  { name := "Main St sewer", location := "Springfield", client := "ACME",
    startDate := none, status := none, notes := none }

/-- Witness for C6 as amended, at jobB and okBody on the empty database. -/
theorem roundtrip_amended_witness :
    getJob (createJob db0 jobB).2 (createJob db0 jobB).1.id
        = some (createJob db0 jobB).1 ∧
      (createJob db0 jobB).1.status = jobB.status.getD "pending" ∧
      getEstimate (postEstimate db0 okBody).2
          (createEstimate db0 (postInsertPayload okParsed)).1.id
        = some (createEstimate db0 (postInsertPayload okParsed)).1 ∧
      (createEstimate db0 (postInsertPayload okParsed)).1.cubicYards
        = calculateCubicYards okParsed.pipeLength okParsed.trenchWidth
            okParsed.trenchDepth := by
  have h := roundtrip_amended db0 jobB okBody okParsed
    (by simp [db0]) (by simp [db0])
    (by simp [jobB]) (by simp [jobB]) (by simp [jobB])
    (by simp [okParsed]) (by simp [okParsed]) validateEstimate_okBody
  exact ⟨h.1.1, h.1.2.2.2.2.2.2.1, h.2.2.1, h.2.2.2.2.2.2.2.2.2.1⟩

/-- applyJobUpdate never touches the primary key. -/
theorem applyJobUpdate_id (u : PartialJob) (j : Job) :
    (applyJobUpdate u j).id = j.id := rfl

/-- The row DbStorage.updateJob returns is the updated image of some
stored row carrying the targeted id. -/
theorem updateJob_returns {db : DB} {id : ℤ} {u : PartialJob} {x : Job}
    (hx : (updateJob db id u).1 = some x) :
    ∃ j ∈ db.jobs, j.id = id ∧ x = applyJobUpdate u j := by
  simp only [updateJob] at hx
  have hmem : x ∈ (db.jobs.map
      (fun j => if j.id == id then applyJobUpdate u j else j)).filter
      (fun j => j.id == id) := by
    cases hl : (db.jobs.map
        (fun j => if j.id == id then applyJobUpdate u j else j)).filter
        (fun j => j.id == id) with
    | nil => rw [hl] at hx; simp at hx
    | cons a t =>
      rw [hl] at hx
      simp only [List.head?] at hx
      obtain rfl : a = x := Option.some.inj hx
      exact List.mem_cons_self a t
  obtain ⟨hmap, hid⟩ := List.mem_filter.mp hmem
  obtain ⟨j, hj, hxj⟩ := List.mem_map.mp hmap
  by_cases h : j.id = id
  · refine ⟨j, hj, h, ?_⟩
    simp [h] at hxj
    exact hxj.symm
  · exfalso
    simp [h] at hxj
    rw [← hxj] at hid
    simp at hid
    exact h hid

/-- A POST /api/jobs body carrying a status outside the enumeration. -/
def bogusJob : InsertJob :=
  { name := "j", location := "l", client := "c", startDate := none,
    status := some "bogus", notes := none }

/-- C7 counterexample: insertJobSchema does not restrict status to the
enumeration, so creating a job with status "bogus" persists a row whose
status is none of pending, in-progress, completed. -/
theorem job_status_enum_counterexample :
    (createJob db0 bogusJob).1 ∈ (createJob db0 bogusJob).2.jobs ∧
      (createJob db0 bogusJob).1.status = "bogus" ∧
      (createJob db0 bogusJob).1.status ≠ "pending" ∧
      (createJob db0 bogusJob).1.status ≠ "in-progress" ∧
      (createJob db0 bogusJob).1.status ≠ "completed" := by
  refine ⟨?_, ?_, ?_, ?_, ?_⟩ <;> simp [createJob, jsStrOr, bogusJob, db0]

/-- C7 as amended: createJob assigns status "pending" when the field is
omitted (or empty), but otherwise create and update persist the supplied
status string unchanged, with no enumeration check anywhere. -/
theorem job_status_passthrough (db : DB) (b : InsertJob) (id : ℤ) (u : PartialJob) :
    (b.status = none ∨ b.status = some "" → (createJob db b).1.status = "pending") ∧
      (∀ s, b.status = some s → s ≠ "" → (createJob db b).1.status = s) ∧
      (createJob db b).1 ∈ (createJob db b).2.jobs ∧
      (∀ j1 s, (updateJob db id u).1 = some j1 → u.status = some s →
        j1.status = s) := by
  refine ⟨?_, ?_, ?_, ?_⟩
  · intro h
    rcases h with h | h <;> simp [createJob, jsStrOr, h]
  · intro s hs hne
    simp [createJob, jsStrOr, hs, hne]
  · simp [createJob]
  · intro j1 s hj hs
    obtain ⟨j, hjm, hid, hx⟩ := updateJob_returns hj
    rw [hx]
    simp [applyJobUpdate, hs]

/-- A stored job row. -/
def jobRow : Job :=
  { id := 1, name := "j", location := "l", client := "c", startDate := none,
    status := "pending", notes := none }

/-- A database holding just jobRow. -/
def dbJ : DB :=
  { jobs := [jobRow], estimates := [], nextJobId := 2, nextEstimateId := 1, now := 0 }

/-- A PUT /api/jobs body updating only status. -/
def statusPatch : PartialJob :=
  { name := none, location := none, client := none, startDate := none,
    status := some "in-progress", notes := none }

/-- jobRow after statusPatch. -/
def jobRowPatched : Job :=
  { id := 1, name := "j", location := "l", client := "c", startDate := none,
    status := "in-progress", notes := none }

/-- A POST /api/jobs body carrying an empty-string status. -/
def emptyStatusJob : InsertJob :=
  { name := "j", location := "l", client := "c", startDate := none,
    status := some "", notes := none }

/-- Witness for C7 as amended: omitted status becomes pending, an
empty-string status also becomes pending, a non-enumerated status
persists on create, and update writes the supplied status through. -/
theorem job_status_passthrough_witness :
    (createJob db0 jobB).1.status = "pending" ∧
      (createJob db0 emptyStatusJob).1.status = "pending" ∧
      (createJob db0 bogusJob).1.status = "bogus" ∧
      jobRowPatched.status = "in-progress" := by
  refine ⟨(job_status_passthrough db0 jobB 1 statusPatch).1 (Or.inl rfl),
    (job_status_passthrough db0 emptyStatusJob 1 statusPatch).1 (Or.inr rfl),
    (job_status_passthrough db0 bogusJob 1 statusPatch).2.1 "bogus" rfl (by decide),
    (job_status_passthrough dbJ jobB 1 statusPatch).2.2.2 jobRowPatched
      "in-progress" ?_ rfl⟩
  simp [updateJob, dbJ, jobRow, statusPatch, applyJobUpdate, jobRowPatched]

/-- C10: string-typed materialWeight, importUnitCost and estimatedHours
are accepted by POST /api/estimates; the transforms store
parseFloat(s) || default, so a string that does not parse (or parses to
0) makes the request succeed and persist the defaults 145, 24.50 and 0. -/
theorem estimate_string_coercion (db : DB) (b : EstimateBody) (j : ℤ)
    (p w dd c : ℚ) (s1 s2 s3 : String)
    (hj : b.jobId = some j)
    (hp : b.pipeLength = some p) (hp0 : 0 < p)
    (hw : b.trenchWidth = some w) (hw0 : 0 < w)
    (hd : b.trenchDepth = some dd) (hd0 : 0 < dd)
    (hc : b.cubicYards = some c)
    (h1 : b.materialWeight = some (.str s1))
    (h2 : b.importUnitCost = some (.str s2))
    (h3 : b.estimatedHours = some (.str s3)) :
    ∃ d, validateEstimate b = some d ∧
      d.materialWeight = jsNumOr (parseFloatQ s1) 145 ∧
      d.importUnitCost = jsNumOr (parseFloatQ s2) 24.5 ∧
      d.estimatedHours = jsNumOr (parseFloatQ s3) 0 ∧
      ∃ e db1, postEstimate db b = (.created e, db1) ∧ e ∈ db1.estimates ∧
        e.materialWeight = jsNumOr (parseFloatQ s1) 145 ∧
        e.importUnitCost = jsNumOr (parseFloatQ s2) 24.5 ∧
        e.estimatedHours = jsNumOr (parseFloatQ s3) 0 ∧
        ((parseFloatQ s1 = none ∨ parseFloatQ s1 = some 0) → e.materialWeight = 145) ∧
        ((parseFloatQ s2 = none ∨ parseFloatQ s2 = some 0) → e.importUnitCost = 24.5) ∧
        ((parseFloatQ s3 = none ∨ parseFloatQ s3 = some 0) → e.estimatedHours = 0) := by
  have hv : validateEstimate b = some
      { jobId := j, description := b.description, pipeLength := p, trenchWidth := w,
        trenchDepth := dd, cubicYards := c,
        materialWeight := jsNumOr (parseFloatQ s1) 145,
        importUnitCost := jsNumOr (parseFloatQ s2) 24.5,
        estimatedHours := jsNumOr (parseFloatQ s3) 0, notes := b.notes } := by
    simp [validateEstimate, hj, hp, hw, hd, hc, h1, h2, h3, requirePos,
      parseNumOrStrPos, parseNumOrStrNonneg, hp0, hw0, hd0]
  refine ⟨_, hv, rfl, rfl, rfl, _, _, postEstimate_success hv, ?_, ?_, ?_, ?_, ?_, ?_, ?_⟩
  · simp [createEstimate]
  · simp [createEstimate, postInsertPayload]
  · simp [createEstimate, postInsertPayload]
  · simp [createEstimate, postInsertPayload, jsNumOr_some_zero]
  · intro h
    rcases h with h | h <;> simp [createEstimate, postInsertPayload, jsNumOr, h]
  · intro h
    rcases h with h | h <;> simp [createEstimate, postInsertPayload, jsNumOr, h]
  · intro h
    rcases h with h | h <;>
      simp [createEstimate, postInsertPayload, jsNumOr_some_zero, jsNumOr, h]

/-- A POST body whose three union fields are unparsable strings. -/
def strBody : EstimateBody :=
  { jobId := some 1, description := none, pipeLength := some 1,
    trenchWidth := some 1, trenchDepth := some 1, cubicYards := some 0,
    materialWeight := some (.str "abc"), importUnitCost := some (.str "n/a"),
    estimatedHours := some (.str "tbd"), notes := none }

/-- Witness for C10 at strBody: none of the three strings parses, so the
transforms hit their default branches, the strings are accepted and the
defaults are persisted. -/
theorem estimate_string_coercion_witness :
    parseFloatQ "abc" = none ∧ parseFloatQ "n/a" = none ∧
      parseFloatQ "tbd" = none ∧
    ∃ d, validateEstimate strBody = some d ∧
      d.materialWeight = jsNumOr (parseFloatQ "abc") 145 ∧
      d.importUnitCost = jsNumOr (parseFloatQ "n/a") 24.5 ∧
      d.estimatedHours = jsNumOr (parseFloatQ "tbd") 0 ∧
      ∃ e db1, postEstimate db0 strBody = (.created e, db1) ∧ e ∈ db1.estimates ∧
        e.materialWeight = jsNumOr (parseFloatQ "abc") 145 ∧
        e.importUnitCost = jsNumOr (parseFloatQ "n/a") 24.5 ∧
        e.estimatedHours = jsNumOr (parseFloatQ "tbd") 0 ∧
        ((parseFloatQ "abc" = none ∨ parseFloatQ "abc" = some 0) →
          e.materialWeight = 145) ∧
        ((parseFloatQ "n/a" = none ∨ parseFloatQ "n/a" = some 0) →
          e.importUnitCost = 24.5) ∧
        ((parseFloatQ "tbd" = none ∨ parseFloatQ "tbd" = some 0) →
          e.estimatedHours = 0) :=
  ⟨by decide, by decide, by decide,
    estimate_string_coercion db0 strBody 1 1 1 1 0 "abc" "n/a" "tbd"
      rfl rfl (by norm_num) rfl (by norm_num) rfl (by norm_num) rfl rfl rfl rfl⟩

end Excavation
